import Mathlib

/-!
Verification of the IoTree42 container-lifecycle and broker-credential core
(src/biomed_iot/users/views.py and src/biomed_iot/users/forms.py), shallowly
embedded in Lean 4.  Persisted Django rows become Lean structures, the record
store becomes a list of rows, and each view/controller operation becomes an
explicit state-passing function translated from the Python source.
-/

namespace IoTree

/-- A persisted `container_port` value.  In the Django model the column can
hold an integer, the SQL NULL (Python `None`), or the empty string (the
source stores `''` when the container reports no port). -/
inductive StoredPort
  | null
  | emptyStr
  | port (n : Nat)
deriving DecidableEq, Repr

/-- One `NodeRedUserData` row (the per-tenant container record used by
src/biomed_iot/users/views.py): owning user id, container name, assigned
reverse-proxy port and the one-time configuration flag. -/
structure NodeRedUserData where
  user : Nat
  container_name : String
  container_port : StoredPort
  is_configured : Bool
deriving DecidableEq, Repr

/-- The Django queryset filter `.filter(container_port=nodered_container.port)`
from views.py line 458: when the observed port is an integer it matches rows
storing exactly that integer; when the observed port is Python `None` the ORM
matches rows whose column is NULL; the empty string matches neither. -/
def matchesFilter (observed : Option Nat) : StoredPort → Bool
  | .port m =>
    match observed with
    | some n => m == n
    | none => false
  | .null => observed.isNone
  | .emptyStr => false

/-- The value persisted for the current tenant in views.py lines 466-470:
the observed integer port when one is bound, the empty string otherwise. -/
def observedToStored : Option Nat → StoredPort
  | some n => .port n
  | none => .emptyStr

/-- Effect of `update_nodered_data_container_port` (views.py lines 452-471) on
one row: the current user's row receives the observed port (or `''`), any
other row holding the observed port value is cleared to NULL, every other
row is untouched. -/
def update_one (uid : Nat) (observed : Option Nat) (r : NodeRedUserData) : NodeRedUserData :=
  if r.user = uid then { r with container_port := observedToStored observed }
  else if matchesFilter observed r.container_port = true then { r with container_port := .null }
  else r

/-- `update_nodered_data_container_port` (views.py lines 452-471): inside one
`transaction.atomic()` block it locks and clears every conflicting row
(other users holding the observed port) and then saves the current user's
row with the observed port.  The whole transaction is modelled as one
atomic update of the record store. -/
def update_nodered_data_container_port (uid : Nat) (observed : Option Nat)
    (db : List NodeRedUserData) : List NodeRedUserData :=
  db.map (update_one uid observed)

/-- Whether a stored port value is an actual (numeric, non-null) port. -/
def isNumPort : StoredPort → Bool
  | .port _ => true
  | .null => false
  | .emptyStr => false

/-- The cross-tenant port-uniqueness invariant: two rows of distinct users
never hold the same numeric port. -/
def portsUnique (db : List NodeRedUserData) : Prop :=
  ∀ r1 ∈ db, ∀ r2 ∈ db, r1.user ≠ r2.user →
    isNumPort r1.container_port = true → r1.container_port ≠ r2.container_port

instance (db : List NodeRedUserData) : Decidable (portsUnique db) := by
  unfold portsUnique; infer_instance

/-! Model of the port-reconciliation step inside `nodered_manager`
(views.py lines 256-261): when the container state is not `'none'`, the
manager determines the bound port and, if it differs from the stored
`container_port`, runs `update_nodered_data_container_port` followed by
`update_nodered_nginx_conf`. -/

/-- Python equality between the stored `container_port` column value and the
value of `nodered_container.port` (an integer or `None`), as used by the
comparison `nodered_data.container_port != nodered_container.port` in
views.py line 259. -/
def storedEqObserved : StoredPort → Option Nat → Bool
  | .port m, some n => m == n
  | .null, none => true
  | _, _ => false

/-- Result of the reconciliation block: the record store after the block and
whether the reverse-proxy configuration was regenerated
(`update_nodered_nginx_conf` called). -/
structure ManagerPortStep where
  db : List NodeRedUserData
  nginx_regenerated : Bool
deriving DecidableEq, Repr

/-- The reconciliation block of `nodered_manager` (views.py lines 256-261),
for the tenant whose row is `nd`: guarded by `state != 'none'`, it compares
the stored port with the observed one and on difference persists the new
port and regenerates the proxy configuration. -/
def nodered_manager_port_check (nd : NodeRedUserData) (state : String)
    (observed : Option Nat) (db : List NodeRedUserData) : ManagerPortStep :=
  if state != "none" then
    if !storedEqObserved nd.container_port observed then
      { db := update_nodered_data_container_port nd.user observed db
        nginx_regenerated := true }
    else
      { db := db, nginx_regenerated := false }
  else
    { db := db, nginx_regenerated := false }

/-! Model of the one-time configuration injection in the `running` branch of
`nodered_manager` (views.py lines 303-311): the injection is guarded by the
row's `is_configured` flag. -/

/-- A tenant's configuration view: the persisted `is_configured` flag plus a
ghost counter of container-engine `exec_config` invocations (the spec's
observable for counting injections). -/
structure TenantCfg where
  is_configured : Bool
  exec_count : Nat
deriving DecidableEq, Repr

/-- Modelled from the spec: `NoderedContainer.configure_nodered`
(src/biomed_iot/users/services/nodered_utils.py, not under src/) obtains the
tenant's bridge broker credential and bucket token, injects both into the
running container via its configuration API (one `exec_config` invocation),
then flips `configured = true` (spec section 4.1, `configure_once`). -/
def configure_nodered (t : TenantCfg) : TenantCfg :=
  { is_configured := true, exec_count := t.exec_count + 1 }

/-- The `running`-state branch of `nodered_manager` (views.py lines 303-311):
`if not nodered_container.nodered_data.is_configured:` inject, else skip. -/
def running_branch (t : TenantCfg) : TenantCfg :=
  if !t.is_configured then configure_nodered t else t

/-! Broker credential model (spec sections 3 and 4.2; driven from views.py
`devices` lines 124-187 and `nodered_open` lines 383-384 via
`MqttClientManager`). -/

/-- Credential roles (`RoleType` in services/mosquitto_utils.py): the
service-owned bridge identity versus tenant-created device identities. -/
inductive RoleType
  | bridge
  | device
deriving DecidableEq, Repr

/-- One broker credential: globally unique username, owning tenant, role,
tenant-chosen display name and the secret issued at creation. -/
structure MqttCredential where
  username : String
  owner : Nat
  role : RoleType
  textname : String
  secret : String
deriving DecidableEq, Repr

/-- Broker-side state: the identity store's credentials and the usernames
that currently have a broker ACL rule provisioned. -/
structure BrokerState where
  credentials : List MqttCredential
  acl_usernames : List String
deriving DecidableEq, Repr

/-- Validation of `MqttClientForm` (forms.py lines 45-46): a single
`textname` CharField with `max_length=30` and `required=True`, so the form
is valid exactly when the name is non-empty and at most 30 characters. -/
def mqtt_client_form_is_valid (textname : String) : Bool :=
  1 ≤ textname.length && textname.length ≤ 30

/-- Outcome of the create branch of the `devices` view. -/
inductive DevicesOutcome
  | createdDevice
  | invalidNameError
deriving DecidableEq, Repr

/-- The create branch of the `devices` view (views.py lines 134-148): when
the form validates, `create_client` runs (taken as a parameter, since
`MqttClientManager` lives outside src/); otherwise an error message is shown
and the broker state is untouched. -/
def devices_create (textname : String) (st : BrokerState)
    (create_client : String → BrokerState → BrokerState) : DevicesOutcome × BrokerState :=
  if mqtt_client_form_is_valid textname then
    (.createdDevice, create_client textname st)
  else
    (.invalidNameError, st)

/-- Modelled from the spec: `MqttClientManager.delete_client`
(services/mosquitto_utils.py, not under src/), the
`delete_device_credential` operation of spec section 4.2: it fails
(returns false) if `username` does not belong to `tenant` or does not have
role `device`; on success it removes the credential and its ACL rule as one
atomic unit. -/
def delete_device_credential (tenant : Nat) (username : String)
    (st : BrokerState) : Bool × BrokerState :=
  match st.credentials.find? (fun c =>
      c.username == username && c.owner == tenant && c.role == RoleType.device) with
  | some _ =>
      (true,
       { credentials := st.credentials.filter (fun c => c.username != username)
         acl_usernames := st.acl_usernames.filter (fun u => u != username) })
  | none => (false, st)

/-- Modelled from the spec: `MqttClientManager.get_nodered_client`
(services/mosquitto_utils.py, not under src/), the
`get_or_create_bridge_credential` operation of spec section 4.2: on first
call it issues a credential with a fresh username/secret and provisions its
ACL rule; on subsequent calls it returns the existing bridge credential
without regenerating the secret. -/
def get_or_create_bridge_credential (tenant : Nat) (freshUsername freshSecret : String)
    (st : BrokerState) : MqttCredential × BrokerState :=
  match st.credentials.find? (fun c => c.owner == tenant && c.role == RoleType.bridge) with
  | some c => (c, st)
  | none =>
      let c : MqttCredential :=
        { username := freshUsername, owner := tenant, role := .bridge
          textname := "nodered", secret := freshSecret }
      (c, { credentials := c :: st.credentials
            acl_usernames := freshUsername :: st.acl_usernames })

/-! Model of `get_or_create_nodered_user_data` (views.py lines 232-244). -/

/-- Outcome of the ORM call `NodeRedUserData.objects.get_or_create(...)`
inside `get_or_create_nodered_user_data`: either it yields a row or it
raises `IntegrityError` (concurrent first creation hitting the uniqueness
constraint). -/
inductive OrmGetOrCreate
  | ok (r : NodeRedUserData)
  | integrityError
deriving DecidableEq, Repr

/-- A Python-level result of running a view helper: a value, or an
`UnboundLocalError` raised because a local variable was never assigned. -/
inductive ViewResult (α : Type)
  | ok (a : α)
  | unboundLocalError
deriving DecidableEq, Repr

/-- `get_or_create_nodered_user_data` (views.py lines 232-244): inside
`transaction.atomic()` it runs `get_or_create`; when that raises
`IntegrityError` the handler is `pass`, which leaves the local
`nodered_data` unassigned, so the trailing `return nodered_data` raises
`UnboundLocalError` instead of re-reading the existing row. -/
def get_or_create_nodered_user_data (orm : OrmGetOrCreate) : ViewResult NodeRedUserData :=
  match orm with
  | .ok r => .ok r
  | .integrityError => .unboundLocalError

/-! Model of the command processing and redirect dispatch of
`nodered_manager` (views.py lines 268-315). -/

/-- The session request flags consumed by `nodered_manager`:
`open_nodered_requested`, `create_nodered_requested`,
`stop_nodered_requested`, `restart_nodered_requested`. -/
structure ManagerFlags where
  open_requested : Bool
  create_requested : Bool
  stop_requested : Bool
  restart_requested : Bool
deriving DecidableEq, Repr

/-- The state-to-redirect dispatch at the end of `nodered_manager`
(views.py lines 291-315). -/
def state_to_redirect (s : String) : String :=
  if s = "none" then "nodered-create"
  else if s = "stopped" then "nodered-restart"
  else if s = "starting" then "nodered-wait"
  else if s = "running" then "nodered-open"
  else "nodered-unavailable"

/-- The container state observed after the create/stop/restart command
processing of `nodered_manager` (views.py lines 273-289): each requested
command calls the engine and re-queries `determine_state`; the engine's
responses are the oracle parameters `createEff`, `stopEff`, `restartEff`. -/
def manager_post_command_state (flags : ManagerFlags) (state0 : String)
    (createEff stopEff restartEff : String → String) : String :=
  let s1 := if flags.create_requested then createEff state0 else state0
  let s2 := if flags.stop_requested then stopEff s1 else s1
  if flags.restart_requested then restartEff s2 else s2

/-- The redirect target returned by `nodered_manager` (views.py lines
268-315): an `open_nodered_requested` flag returns `redirect('nodered')`
before any command processing or state dispatch; otherwise the
create/stop/restart commands run and the final observed state selects the
redirect target. -/
def nodered_manager_route (flags : ManagerFlags) (state0 : String)
    (createEff stopEff restartEff : String → String) : String :=
  if flags.open_requested then "nodered"
  else state_to_redirect (manager_post_command_state flags state0 createEff stopEff restartEff)

/-! Model of the session-gated lifecycle sub-pages (views.py lines
318-427). -/

/-- The session keys read by the gated sub-pages: the
`came_from_nodered_manager` flag and the `container_name` key. -/
structure GateSession where
  came_from_nodered_manager : Bool
  container_name : Option String
deriving DecidableEq, Repr

/-- What a GET of a sub-page does: render its template or redirect back to
`nodered-manager`. -/
inductive PageOutcome
  | rendered
  | redirectToManager
deriving DecidableEq, Repr

/-- The GET path shared verbatim by `nodered_create` (lines 324-333),
`nodered_restart` (342-351), `nodered_wait` (356-365), `nodered_open`
(379-393) and `nodered_unavailable` (401-410): without the
`came_from_nodered_manager` flag it redirects to the manager; otherwise it
deletes the flag and renders. -/
def gated_subpage_get (s : GateSession) : PageOutcome × GateSession :=
  if !s.came_from_nodered_manager then (.redirectToManager, s)
  else (.rendered, { s with came_from_nodered_manager := false })

/-- The GET path of the `nodered` view (views.py lines 413-427): without the
flag, or without a `container_name` in the session, it redirects to the
manager; otherwise it deletes `container_name` (but not the
`came_from_nodered_manager` flag) and renders. -/
def nodered_get (s : GateSession) : PageOutcome × GateSession :=
  if !s.came_from_nodered_manager then (.redirectToManager, s)
  else
    match s.container_name with
    | none => (.redirectToManager, s)
    | some _ => (.rendered, { s with container_name := none })

theorem update_one_user (uid : Nat) (observed : Option Nat) (r : NodeRedUserData) :
    (update_one uid observed r).user = r.user := by
  unfold update_one
  by_cases h1 : r.user = uid
  · rw [if_pos h1]
  · rw [if_neg h1]
    by_cases h2 : matchesFilter observed r.container_port = true
    · rw [if_pos h2]
    · rw [if_neg h2]

theorem update_one_port (uid : Nat) (observed : Option Nat) (r : NodeRedUserData) :
    (update_one uid observed r).container_port =
      if r.user = uid then observedToStored observed
      else if matchesFilter observed r.container_port = true then .null
      else r.container_port := by
  unfold update_one
  by_cases h1 : r.user = uid
  · rw [if_pos h1, if_pos h1]
  · rw [if_neg h1, if_neg h1]
    by_cases h2 : matchesFilter observed r.container_port = true
    · rw [if_pos h2, if_pos h2]
    · rw [if_neg h2, if_neg h2]

theorem matchesFilter_false_ne (n : Nat) (p : StoredPort)
    (h : matchesFilter (some n) p = false) : p ≠ .port n := by
  intro hp
  subst hp
  simp [matchesFilter] at h

theorem isNumPort_exists (p : StoredPort) (h : isNumPort p = true) : ∃ m, p = .port m := by
  cases p <;> simp [isNumPort] at h ⊢

/-- Helper: after a write with a bound observed port, no row of another user
holds that port. -/
theorem upd_clears_conflicts (uid n : Nat) (db : List NodeRedUserData) :
    ∀ r ∈ update_nodered_data_container_port uid (some n) db,
      r.user ≠ uid → r.container_port ≠ .port n := by
  intro r hr hne hc
  unfold update_nodered_data_container_port at hr
  obtain ⟨a, ha, rfl⟩ := List.mem_map.mp hr
  rw [update_one_user] at hne
  rw [update_one_port, if_neg hne] at hc
  by_cases hm : matchesFilter (some n) a.container_port = true
  · rw [if_pos hm] at hc
    exact StoredPort.noConfusion hc
  · rw [if_neg hm] at hc
    have hm' : matchesFilter (some n) a.container_port = false := by simpa using hm
    exact matchesFilter_false_ne n a.container_port hm' hc

/-- Helper: after the write, the current user's row holds the observed port
(or the empty string when no port is bound). -/
theorem upd_sets_current (uid : Nat) (observed : Option Nat) (db : List NodeRedUserData) :
    ∀ r ∈ update_nodered_data_container_port uid observed db,
      r.user = uid → r.container_port = observedToStored observed := by
  intro r hr he
  unfold update_nodered_data_container_port at hr
  obtain ⟨a, ha, rfl⟩ := List.mem_map.mp hr
  rw [update_one_user] at he
  rw [update_one_port, if_pos he]

/-- Helper: the write preserves cross-tenant numeric-port uniqueness. -/
theorem upd_preserves_unique (uid : Nat) (observed : Option Nat) (db : List NodeRedUserData)
    (h : portsUnique db) :
    portsUnique (update_nodered_data_container_port uid observed db) := by
  intro r1 h1 r2 h2 hne hnum
  unfold update_nodered_data_container_port at h1 h2
  obtain ⟨a1, ha1, rfl⟩ := List.mem_map.mp h1
  obtain ⟨a2, ha2, rfl⟩ := List.mem_map.mp h2
  rw [update_one_user, update_one_user] at hne
  rw [update_one_port] at hnum ⊢
  rw [update_one_port]
  by_cases e1 : a1.user = uid <;> by_cases e2 : a2.user = uid
  · exact absurd (e1.trans e2.symm) hne
  · -- current user's row against another row
    rw [if_pos e1] at hnum ⊢
    rw [if_neg e2]
    cases hobs : observed with
    | none => rw [hobs] at hnum; simp [observedToStored, isNumPort] at hnum
    | some n =>
      subst hobs
      by_cases hm : matchesFilter (some n) a2.container_port = true
      · rw [if_pos hm]
        simp [observedToStored]
      · rw [if_neg hm]
        have hm' : matchesFilter (some n) a2.container_port = false := by simpa using hm
        simp only [observedToStored]
        exact fun hc => matchesFilter_false_ne n a2.container_port hm' hc.symm
  · -- another row against the current user's row
    rw [if_neg e1] at hnum ⊢
    rw [if_pos e2]
    by_cases hm : matchesFilter observed a1.container_port = true
    · rw [if_pos hm] at hnum
      simp [isNumPort] at hnum
    · rw [if_neg hm] at hnum ⊢
      have hm' : matchesFilter observed a1.container_port = false := by simpa using hm
      obtain ⟨m, hpm⟩ := isNumPort_exists _ hnum
      cases hobs : observed with
      | none => rw [hpm]; simp [observedToStored]
      | some n =>
        subst hobs
        simp only [observedToStored]
        exact matchesFilter_false_ne n a1.container_port hm'
  · -- two rows of other users
    rw [if_neg e1] at hnum ⊢
    rw [if_neg e2]
    by_cases hm1 : matchesFilter observed a1.container_port = true
    · rw [if_pos hm1] at hnum
      simp [isNumPort] at hnum
    · rw [if_neg hm1] at hnum ⊢
      by_cases hm2 : matchesFilter observed a2.container_port = true
      · rw [if_pos hm2]
        obtain ⟨m, hpm⟩ := isNumPort_exists _ hnum
        rw [hpm]
        simp
      · rw [if_neg hm2]
        exact h a1 ha1 a2 ha2 hne hnum

/-- Helper: reduction of the reconciliation block when the state is not
`'none'` and the stored port differs from the observed one. -/
theorem port_check_on_diff (nd : NodeRedUserData) (state : String) (observed : Option Nat)
    (db : List NodeRedUserData) (h1 : state ≠ "none")
    (h2 : storedEqObserved nd.container_port observed = false) :
    nodered_manager_port_check nd state observed db =
      { db := update_nodered_data_container_port nd.user observed db
        nginx_regenerated := true } := by
  unfold nodered_manager_port_check
  have hb1 : (state != "none") = true := by simpa using h1
  rw [if_pos hb1]
  have hb2 : (!storedEqObserved nd.container_port observed) = true := by rw [h2]; rfl
  rw [if_pos hb2]

/-- Helper: reduction of the reconciliation block when the stored port equals
the observed one. -/
theorem port_check_on_eq (nd : NodeRedUserData) (state : String) (observed : Option Nat)
    (db : List NodeRedUserData)
    (h2 : storedEqObserved nd.container_port observed = true) :
    nodered_manager_port_check nd state observed db =
      { db := db, nginx_regenerated := false } := by
  unfold nodered_manager_port_check
  by_cases hb1 : (state != "none") = true
  · rw [if_pos hb1]
    have hb2 : (!storedEqObserved nd.container_port observed) = false := by rw [h2]; rfl
    rw [hb2]
    rfl
  · rw [if_neg hb1]

/-- Claim C1: the port-reconciliation write
`update_nodered_data_container_port` clears every other tenant's record
holding the observed port before persisting it for the current tenant (the
whole write being one atomic transaction in the model), so that two
distinct tenants never both hold the same non-null assigned port: the
write preserves the cross-tenant numeric-port uniqueness invariant, after
it no other tenant's row stores the observed port, and the current tenant's
row stores exactly it. -/
theorem claim1_cross_tenant_port_uniqueness (uid n : Nat) (db : List NodeRedUserData)
    (h : portsUnique db) :
    portsUnique (update_nodered_data_container_port uid (some n) db) ∧
    (∀ r ∈ update_nodered_data_container_port uid (some n) db,
       r.user ≠ uid → r.container_port ≠ .port n) ∧
    (∀ r ∈ update_nodered_data_container_port uid (some n) db,
       r.user = uid → r.container_port = .port n) :=
  ⟨upd_preserves_unique uid (some n) db h,
   upd_clears_conflicts uid n db,
   fun r hr he => upd_sets_current uid (some n) db r hr he⟩

/-- Witness for claim C1 at a concrete two-tenant store. -/
theorem claim1_witness :
    portsUnique
      [⟨1, "nr-a", .port 1880, true⟩, ⟨2, "nr-b", .port 1881, true⟩] ∧
    portsUnique (update_nodered_data_container_port 2 (some 1880)
      [⟨1, "nr-a", .port 1880, true⟩, ⟨2, "nr-b", .port 1881, true⟩]) :=
  ⟨by decide,
   (claim1_cross_tenant_port_uniqueness 2 1880
      [⟨1, "nr-a", .port 1880, true⟩, ⟨2, "nr-b", .port 1881, true⟩] (by decide)).1⟩

/-- Claim C2: in `nodered_manager`, when the state query observes a port
different from the stored one (state not `'none'`), the block persists the
new port through `update_nodered_data_container_port` — clearing any other
tenant holding that port — and regenerates the reverse-proxy
configuration; when the observed port equals the stored one, the store is
untouched and no regeneration happens. -/
theorem claim2_port_reconciliation_sequence (nd : NodeRedUserData) (state : String)
    (observed : Option Nat) (db : List NodeRedUserData) (hstate : state ≠ "none") :
    (storedEqObserved nd.container_port observed = false →
       (nodered_manager_port_check nd state observed db).nginx_regenerated = true ∧
       (nodered_manager_port_check nd state observed db).db =
         update_nodered_data_container_port nd.user observed db ∧
       (∀ n, observed = some n →
          ∀ r ∈ (nodered_manager_port_check nd state observed db).db,
            r.user ≠ nd.user → r.container_port ≠ .port n) ∧
       (∀ r ∈ (nodered_manager_port_check nd state observed db).db,
          r.user = nd.user → r.container_port = observedToStored observed)) ∧
    (storedEqObserved nd.container_port observed = true →
       (nodered_manager_port_check nd state observed db).db = db ∧
       (nodered_manager_port_check nd state observed db).nginx_regenerated = false) := by
  constructor
  · intro hdiff
    rw [port_check_on_diff nd state observed db hstate hdiff]
    refine ⟨rfl, rfl, ?_, ?_⟩
    · intro n hobs
      subst hobs
      exact upd_clears_conflicts nd.user n db
    · exact upd_sets_current nd.user observed db
  · intro heq
    rw [port_check_on_eq nd state observed db heq]
    exact ⟨rfl, rfl⟩

/-- Witness for claim C2: tenant 2 observes port 1880, previously stored by
tenant 1; the write clears tenant 1's row and regenerates the proxy
configuration; with an unchanged port nothing happens. -/
theorem claim2_witness :
    (("running" : String) ≠ "none") ∧
    storedEqObserved StoredPort.null (some 1880) = false ∧
    (nodered_manager_port_check ⟨2, "nr-b", .null, true⟩ "running" (some 1880)
       [⟨1, "nr-a", .port 1880, true⟩, ⟨2, "nr-b", .null, true⟩]).nginx_regenerated = true ∧
    storedEqObserved (StoredPort.port 1880) (some 1880) = true ∧
    (nodered_manager_port_check ⟨2, "nr-b", .port 1880, true⟩ "running" (some 1880)
       [⟨1, "nr-a", .null, true⟩, ⟨2, "nr-b", .port 1880, true⟩]).nginx_regenerated = false := by
  refine ⟨by decide, by decide, ?_, by decide, ?_⟩
  · exact ((claim2_port_reconciliation_sequence ⟨2, "nr-b", .null, true⟩ "running" (some 1880)
      [⟨1, "nr-a", .port 1880, true⟩, ⟨2, "nr-b", .null, true⟩] (by decide)).1 (by decide)).1
  · exact ((claim2_port_reconciliation_sequence ⟨2, "nr-b", .port 1880, true⟩ "running" (some 1880)
      [⟨1, "nr-a", .null, true⟩, ⟨2, "nr-b", .port 1880, true⟩] (by decide)).2 (by decide)).2

/-- Helper: one pass through the running-state branch leaves the tenant
configured. -/
theorem running_branch_configures (t : TenantCfg) :
    (running_branch t).is_configured = true := by
  unfold running_branch configure_nodered
  cases h : t.is_configured <;> simp [h]

/-- Helper: the running-state branch is a no-op on a configured tenant. -/
theorem running_branch_noop (t : TenantCfg) (h : t.is_configured = true) :
    running_branch t = t := by
  unfold running_branch
  rw [h]
  rfl

/-- Claim C3: the configuration injection in the running-state branch of
`nodered_manager` is guarded by `is_configured`: for a tenant already
configured the branch performs no injection (no-op), an unconfigured
tenant is injected exactly once (one `exec_config` invocation) and comes
out configured, and any number of further passes performs no further
injection. -/
theorem claim3_configure_idempotent (t : TenantCfg) :
    (t.is_configured = true → running_branch t = t) ∧
    (t.is_configured = false →
       (running_branch t).exec_count = t.exec_count + 1 ∧
       (running_branch t).is_configured = true) ∧
    (∀ k, (running_branch^[k + 1]) t = running_branch t) := by
  refine ⟨running_branch_noop t, ?_, ?_⟩
  · intro h
    constructor
    · unfold running_branch configure_nodered
      rw [h]
      rfl
    · exact running_branch_configures t
  · intro k
    have hfix : running_branch (running_branch t) = running_branch t :=
      running_branch_noop (running_branch t) (running_branch_configures t)
    rw [Function.iterate_succ_apply]
    exact Function.iterate_fixed hfix k

/-- Witness for claim C3: a configured tenant is untouched; an unconfigured
tenant gets exactly one injection, also across two passes. -/
theorem claim3_witness :
    running_branch ⟨true, 5⟩ = ⟨true, 5⟩ ∧
    (running_branch ⟨false, 0⟩).exec_count = 1 ∧
    (running_branch^[2]) (⟨false, 0⟩ : TenantCfg) = running_branch ⟨false, 0⟩ :=
  ⟨(claim3_configure_idempotent ⟨true, 5⟩).1 rfl,
   ((claim3_configure_idempotent ⟨false, 0⟩).2.1 rfl).1,
   (claim3_configure_idempotent ⟨false, 0⟩).2.2 1⟩

/-- Claim C4: a device-credential creation request whose display name is
empty or longer than 30 characters always fails form validation, calls no
creation and leaves the broker state (credentials and ACL rules)
unchanged; a name of 1 to 30 characters validates and creation proceeds. -/
theorem claim4_device_name_validation (textname : String) (st : BrokerState)
    (create_client : String → BrokerState → BrokerState) :
    ((textname.length = 0 ∨ 30 < textname.length) →
       devices_create textname st create_client = (.invalidNameError, st)) ∧
    (1 ≤ textname.length → textname.length ≤ 30 →
       (devices_create textname st create_client).1 = .createdDevice ∧
       (devices_create textname st create_client).2 = create_client textname st) := by
  constructor
  · intro h
    have hv : mqtt_client_form_is_valid textname = false := by
      unfold mqtt_client_form_is_valid
      rcases h with h | h <;> simp <;> omega
    unfold devices_create
    rw [hv]
    rfl
  · intro h1 h2
    have hv : mqtt_client_form_is_valid textname = true := by
      unfold mqtt_client_form_is_valid
      simp [h1, h2]
    unfold devices_create
    rw [hv]
    exact ⟨rfl, rfl⟩

/-- Witness for claim C4: the empty name and a 31-character name fail and
change nothing; an 8-character name validates and creation proceeds. -/
theorem claim4_witness :
    devices_create "" ⟨[], []⟩ (fun _ s => s) = (.invalidNameError, ⟨[], []⟩) ∧
    devices_create "0123456789012345678901234567890" ⟨[], []⟩ (fun _ s => s) =
      (.invalidNameError, ⟨[], []⟩) ∧
    (devices_create "sensor-1" ⟨[], []⟩ (fun _ s => s)).1 = .createdDevice :=
  ⟨(claim4_device_name_validation "" ⟨[], []⟩ (fun _ s => s)).1 (Or.inl (by decide)),
   (claim4_device_name_validation "0123456789012345678901234567890" ⟨[], []⟩
      (fun _ s => s)).1 (Or.inr (by decide)),
   ((claim4_device_name_validation "sensor-1" ⟨[], []⟩ (fun _ s => s)).2
      (by decide) (by decide)).1⟩

/-- Claim C5: deleting a device credential by a username that belongs to a
different tenant, or that does not have the device role (e.g. the bridge
credential), always fails (returns false) and leaves the broker state —
the target credential and its ACL rule included — unchanged. -/
theorem claim5_cross_tenant_delete_protection (tenant : Nat) (username : String)
    (st : BrokerState) (c : MqttCredential)
    (hmem : c ∈ st.credentials) (hname : c.username = username)
    (huniq : ∀ c2 ∈ st.credentials, c2.username = username → c2 = c)
    (hforeign : c.owner ≠ tenant ∨ c.role ≠ RoleType.device) :
    delete_device_credential tenant username st = (false, st) := by
  unfold delete_device_credential
  have hfind : st.credentials.find? (fun c2 =>
      c2.username == username && c2.owner == tenant && c2.role == RoleType.device) = none := by
    rw [List.find?_eq_none]
    intro x hx hpred
    simp only [Bool.and_eq_true, beq_iff_eq] at hpred
    obtain ⟨⟨hxn, hxo⟩, hxr⟩ := hpred
    have hxc : x = c := huniq x hx hxn
    subst hxc
    rcases hforeign with h | h
    · exact h hxo
    · exact h hxr
  rw [hfind]

/-- Witness for claim C5: tenant 1 cannot delete tenant 2's device
credential, and cannot delete their own bridge credential. -/
theorem claim5_witness :
    delete_device_credential 1 "dev-2"
      ⟨[⟨"bridge-1", 1, .bridge, "nodered", "s1"⟩,
        ⟨"dev-2", 2, .device, "sensor", "s2"⟩],
       ["bridge-1", "dev-2"]⟩ =
      (false,
       ⟨[⟨"bridge-1", 1, .bridge, "nodered", "s1"⟩,
         ⟨"dev-2", 2, .device, "sensor", "s2"⟩],
        ["bridge-1", "dev-2"]⟩) ∧
    delete_device_credential 1 "bridge-1"
      ⟨[⟨"bridge-1", 1, .bridge, "nodered", "s1"⟩,
        ⟨"dev-2", 2, .device, "sensor", "s2"⟩],
       ["bridge-1", "dev-2"]⟩ =
      (false,
       ⟨[⟨"bridge-1", 1, .bridge, "nodered", "s1"⟩,
         ⟨"dev-2", 2, .device, "sensor", "s2"⟩],
        ["bridge-1", "dev-2"]⟩) :=
  ⟨claim5_cross_tenant_delete_protection 1 "dev-2" _
     ⟨"dev-2", 2, .device, "sensor", "s2"⟩ (by decide) (by decide) (by decide)
     (Or.inl (by decide)),
   claim5_cross_tenant_delete_protection 1 "bridge-1" _
     ⟨"bridge-1", 1, .bridge, "nodered", "s1"⟩ (by decide) (by decide) (by decide)
     (Or.inr (by decide))⟩

/-- Claim C6: fetching the tenant's bridge credential twice returns the same
username and the same secret both times — the secret is never silently
regenerated after first issuance, whatever fresh material the second call
would have had available. -/
theorem claim6_bridge_credential_stable (tenant : Nat) (fu1 fs1 fu2 fs2 : String)
    (st : BrokerState) :
    (get_or_create_bridge_credential tenant fu2 fs2
       (get_or_create_bridge_credential tenant fu1 fs1 st).2).1.username =
      (get_or_create_bridge_credential tenant fu1 fs1 st).1.username ∧
    (get_or_create_bridge_credential tenant fu2 fs2
       (get_or_create_bridge_credential tenant fu1 fs1 st).2).1.secret =
      (get_or_create_bridge_credential tenant fu1 fs1 st).1.secret := by
  unfold get_or_create_bridge_credential
  cases hfind : st.credentials.find? (fun c => c.owner == tenant && c.role == RoleType.bridge) with
  | some c => simp [hfind]
  | none =>
    simp only [hfind]
    simp [List.find?]

/-- Claim C7 (code bug): `get_or_create_nodered_user_data` catches
`IntegrityError` with `pass` and then returns the local `nodered_data`,
which on that path was never assigned — so on a concurrent-creation
uniqueness violation the function raises `UnboundLocalError` and returns
no record, instead of re-reading the existing row. -/
theorem claim7_get_or_create_race_unbound :
    (∀ r, get_or_create_nodered_user_data (.ok r) = .ok r) ∧
    get_or_create_nodered_user_data .integrityError = .unboundLocalError ∧
    (∀ r, get_or_create_nodered_user_data .integrityError ≠ .ok r) :=
  ⟨fun _ => rfl, rfl, fun _ h => ViewResult.noConfusion h⟩

/-- Claim C8 counterexample: with the open command requested and the
container observed in state `stopped`, `nodered_manager` redirects to the
Node-RED flows page `'nodered'` — not to the restart page the
state-to-outcome mapping of the claim prescribes for `stopped` — so the
redirect target is not determined solely by the observed state. -/
theorem claim8_counterexample :
    nodered_manager_route ⟨true, false, false, false⟩ "stopped" id id id = "nodered" ∧
    nodered_manager_route ⟨true, false, false, false⟩ "stopped" id id id ≠
      "nodered-restart" :=
  ⟨rfl, by decide⟩

/-- Claim C8 (amended): for every request without the open command, the
redirect target of `nodered_manager` is determined solely by the state
observed after the create/stop/restart processing: `'none'` leads to the
create page, `'stopped'` to the restart page, `'starting'` to the wait
page, `'running'` to the open page, and every other state to the
unavailable page; the open command instead redirects to the Node-RED
flows page before the state dispatch. -/
theorem claim8_state_to_outcome (flags : ManagerFlags) (state0 : String)
    (cEff sEff rEff : String → String) (hopen : flags.open_requested = false) :
    nodered_manager_route flags state0 cEff sEff rEff =
      state_to_redirect (manager_post_command_state flags state0 cEff sEff rEff) ∧
    state_to_redirect "none" = "nodered-create" ∧
    state_to_redirect "stopped" = "nodered-restart" ∧
    state_to_redirect "starting" = "nodered-wait" ∧
    state_to_redirect "running" = "nodered-open" ∧
    (∀ s, s ≠ "none" → s ≠ "stopped" → s ≠ "starting" → s ≠ "running" →
       state_to_redirect s = "nodered-unavailable") := by
  refine ⟨?_, by decide, by decide, by decide, by decide, ?_⟩
  · unfold nodered_manager_route
    rw [hopen]
    rfl
  · intro s h1 h2 h3 h4
    unfold state_to_redirect
    rw [if_neg h1, if_neg h2, if_neg h3, if_neg h4]

/-- Witness for claim C8 (amended) at a concrete request: no command flags,
observed state `stopped`, redirect to the restart page. -/
theorem claim8_witness :
    nodered_manager_route ⟨false, false, false, false⟩ "stopped" id id id =
      "nodered-restart" := by
  have h := claim8_state_to_outcome ⟨false, false, false, false⟩ "stopped" id id id rfl
  rw [h.1]
  decide

/-- Claim C9 counterexample: the `nodered` view renders without deleting the
`came_from_nodered_manager` flag (it consumes `container_name` instead), so
a direct fetch of `nodered` followed by a direct fetch of another
lifecycle sub-page both render — two consecutive direct fetches can both
render, and not every successful render consumes the flag. -/
theorem claim9_counterexample :
    (nodered_get ⟨true, some "nr-a"⟩).1 = .rendered ∧
    (nodered_get ⟨true, some "nr-a"⟩).2.came_from_nodered_manager = true ∧
    (gated_subpage_get (nodered_get ⟨true, some "nr-a"⟩).2).1 = .rendered := by
  decide

/-- Claim C9 (amended): every lifecycle sub-page fetched without the
`came_from_nodered_manager` flag redirects to the manager with the session
unchanged; `nodered_create`/`nodered_restart`/`nodered_wait`/
`nodered_open`/`nodered_unavailable` consume the flag on every successful
render, so two consecutive direct fetches of those pages never both
render; the `nodered` view renders without deleting the flag and consumes
the `container_name` key instead, so two consecutive direct fetches of
`nodered` itself never both render (but a render of `nodered` followed by
another sub-page can). -/
theorem claim9_gate_invariant (s : GateSession) :
    (s.came_from_nodered_manager = false →
       gated_subpage_get s = (.redirectToManager, s) ∧
       nodered_get s = (.redirectToManager, s)) ∧
    ((gated_subpage_get s).1 = .rendered →
       (gated_subpage_get s).2.came_from_nodered_manager = false) ∧
    ((gated_subpage_get s).1 = .rendered →
       (gated_subpage_get (gated_subpage_get s).2).1 = .redirectToManager) ∧
    ((nodered_get s).1 = .rendered → (nodered_get s).2.container_name = none) ∧
    ((nodered_get s).1 = .rendered →
       (nodered_get (nodered_get s).2).1 = .redirectToManager) := by
  obtain ⟨flag, name⟩ := s
  cases flag <;> cases name <;>
    simp [gated_subpage_get, nodered_get]

/-- Witness for claim C9 (amended): a gate-less fetch redirects; after a
render of a flag-consuming sub-page a second fetch redirects; after a
render of `nodered` a second `nodered` fetch redirects. -/
theorem claim9_witness :
    gated_subpage_get ⟨false, none⟩ = (.redirectToManager, ⟨false, none⟩) ∧
    (gated_subpage_get (gated_subpage_get ⟨true, none⟩).2).1 = .redirectToManager ∧
    (nodered_get (nodered_get ⟨true, some "nr-a"⟩).2).1 = .redirectToManager :=
  ⟨((claim9_gate_invariant ⟨false, none⟩).1 rfl).1,
   (claim9_gate_invariant ⟨true, none⟩).2.2.1 (by decide),
   (claim9_gate_invariant ⟨true, some "nr-a"⟩).2.2.2.2 (by decide)⟩

/-- Claim C10: in the port-reconciliation write, a conflicting tenant's
cleared port is persisted as NULL (Python `None`, views.py line 462),
while the current tenant whose container reports no bound port gets the
empty string `''` (views.py line 470) — two distinct persisted
representations of "no port". -/
theorem claim10_no_port_representations (uid p : Nat) (r cur : NodeRedUserData)
    (hu : r.user ≠ uid) (hp : r.container_port = .port p) (hc : cur.user = uid) :
    update_nodered_data_container_port uid (some p) [r] =
      [{ r with container_port := .null }] ∧
    update_nodered_data_container_port uid none [cur] =
      [{ cur with container_port := .emptyStr }] ∧
    StoredPort.null ≠ StoredPort.emptyStr := by
  refine ⟨?_, ?_, by decide⟩
  · have hm : matchesFilter (some p) r.container_port = true := by
      rw [hp]
      simp [matchesFilter]
    unfold update_nodered_data_container_port
    simp only [List.map_cons, List.map_nil]
    unfold update_one
    rw [if_neg hu, if_pos hm]
  · unfold update_nodered_data_container_port
    simp only [List.map_cons, List.map_nil]
    unfold update_one
    rw [if_pos hc]
    rfl

/-- Witness for claim C10 at concrete rows: tenant 1's conflicting row is
cleared to NULL; tenant 2's own row with no bound port gets `''`. -/
theorem claim10_witness :
    update_nodered_data_container_port 2 (some 1880) [⟨1, "nr-a", .port 1880, true⟩] =
      [⟨1, "nr-a", .null, true⟩] ∧
    update_nodered_data_container_port 2 none [⟨2, "nr-b", .port 1881, true⟩] =
      [⟨2, "nr-b", .emptyStr, true⟩] :=
  ⟨(claim10_no_port_representations 2 1880 ⟨1, "nr-a", .port 1880, true⟩
      ⟨2, "nr-b", .port 1881, true⟩ (by decide) rfl rfl).1,
   (claim10_no_port_representations 2 1880 ⟨1, "nr-a", .port 1880, true⟩
      ⟨2, "nr-b", .port 1881, true⟩ (by decide) rfl rfl).2.1⟩

end IoTree
